import Mathlib

/-!
# GitLinkRepository: sessions, remote cache, fetch/push and serialisation

A shallow embedding of `src/classes/GitLinkRepository.cpp`.

* Pointers are `Option` values (`none` is `NULL`); engine objects are handles (`Nat`).
* The version-control engine (libgit2) is an environment record `Engine` that fixes what each
  engine call answers; every engine call the code makes is appended to a call log, so that
  statements such as "no connect is attempted" or "disconnected exactly once" are statements
  about that log.
* A read through a null pointer has no defined continuation.  The serialisation functions that
  can reach one return `Option`, with `none` for that fault; `fetch` and `push` end in an `Exit`,
  whose `ret` is `none` when the function did not return and which keeps the object and the call
  log as they were at that point.
-/

set_option linter.unusedVariables false

namespace GitLink

/-! ## Data model -/

/-- Modelled from the spec: `Message.h` is not among the sources; the `Message::…` constants the
code stores in `errCode_` are the closed enumeration of error kinds (the code's names are kept,
the spec's `ConnectionFailed` is `RemoteConnectionFailed`).  `errCode_ == NULL` is `none`. -/
inductive ErrKind where
  | BadRepo
  | BadRemote
  | RemoteConnectionFailed
  | DownloadFailed
  | UpdateTipsFailed
  | BadPush
  | BadCommitish
  | PushUnfinished
  | RemoteUnpackFailed
  | RefNotPushed
  deriving DecidableEq, Repr

/-- Direction argument of `git_remote_connect`. -/
inductive Direction where
  | GIT_DIRECTION_FETCH
  | GIT_DIRECTION_PUSH
  deriving DecidableEq, Repr

/-- Calls into the engine, in the order the code makes them. -/
inductive EngineCall where
  | giterr_clear
  | git_repository_open (path : String)
  | git_repository_free (repo : Option Nat)
  | git_remote_free (remote : Nat)
  | git_remote_load (repo : Option Nat) (name : String)
  | git_remote_set_callbacks (remote : Nat)
  | git_remote_connect (remote : Option Nat) (dir : Direction)
  | git_remote_download (remote : Option Nat)
  | git_signature_free (sig : Nat)
  | git_signature_default (repo : Nat)
  | git_remote_update_tips (remote : Option Nat) (sig : Option Nat) (msg : String)
  | git_remote_disconnect (remote : Option Nat)
  | git_push_new (remote : Option Nat)
  | git_push_add_refspec (push : Nat) (refspec : String)
  | git_push_finish (push : Nat)
  | git_push_unpack_ok (push : Nat)
  | git_push_status_foreach (push : Nat)
  | git_push_free (push : Nat)
  | git_cred_default_new
  | git_cred_ssh_key_new (username : Option String) (publickey privatekey passphrase : String)
  deriving DecidableEq, Repr

/-- The result of an engine call that the source follows by a read of `giterr_last()->message`
when it fails: `fail g` is a non-zero return code after which `giterr_last()` returns `g`, null
(`none`) when the failing call left no last error. -/
inductive Outcome where
  | ok
  | fail (giterr_last : Option String)
  deriving DecidableEq, Repr

/-- Zero return code. -/
def Outcome.succeeded : Outcome → Bool
  | .ok => true
  | .fail _ => false

/-- What the engine answers to each call of one operation.  A handle-returning call answers
`some h` when it returns `0` and `none` otherwise. -/
structure Engine where
  git_remote_load : Option Nat
  git_remote_set_callbacks : Bool
  git_remote_connect : Outcome
  git_remote_download : Outcome
  git_signature_default : Option Nat
  git_remote_update_tips : Outcome
  git_push_new : Option Nat
  git_push_add_refspec : Bool
  git_push_finish : Outcome
  git_push_unpack_ok : Bool
  /-- The `(ref, msg)` pairs `git_push_status_foreach` reports; `msg` is `NULL` for an accepted ref. -/
  push_status : List (String × Option String)
  /-- What `giterr_last()` returns while the status callback runs; no call of the push has failed
  then, so it is null unless an earlier operation left a last error. -/
  giterr_last : Option String

/-- The fields of `GitLinkRepository`. -/
structure GitLinkRepository where
  key_ : Int
  repo_ : Option Nat
  remoteName_ : Option String
  remote_ : Option Nat
  committer_ : Option Nat
  privateKeyFile_ : Option String
  errCode_ : Option ErrKind
  errCodeParam_ : Option String
  deriving DecidableEq, Repr

/-- A member function's return value, the object afterwards, and the engine calls it made. -/
structure Run (α : Type) where
  ret : α
  self : GitLinkRepository
  calls : List EngineCall

/-- The end of a member function that reads `giterr_last()->message`: `ret` is its return value,
or `none` when it did not return because `giterr_last()` was null at such a read; `self` and
`calls` are the object and the engine calls made up to the return or up to that read. -/
structure Exit (α : Type) where
  ret : Option α
  self : GitLinkRepository
  calls : List EngineCall

/-- What the two stores of `pushCallBack_`, `repo->errCode_ = …` and `repo->errCodeParam_ = …`,
do to the session.  `push` passes `&errCode_` as the payload and the callback casts the payload
to `GitLinkRepository*`, so the stores go to the addresses `&errCode_ + offsetof(errCode_)` and
`&errCode_ + offsetof(errCodeParam_)`.  The offsets are fixed by the class declaration in
`GitLinkRepository.h`, which is not among the sources, so the effect of each store on the
session is a parameter. -/
structure PayloadLayout where
  store_errCode_ : GitLinkRepository → ErrKind → GitLinkRepository
  store_errCodeParam_ : GitLinkRepository → String → GitLinkRepository

/-- The layout in which `errCode_` is the first member: `&errCode_` is the address of the object
and the stores reach the session's own `errCode_` and `errCodeParam_`. -/
def PayloadLayout.atObject : PayloadLayout :=
  { store_errCode_ := fun self code => { self with errCode_ := some code },
    store_errCodeParam_ := fun self message => { self with errCodeParam_ := some message } }

/-- A layout in which `errCode_` is not the first member and the stores land on memory that no
member of the session occupies (as when the two error members are declared last): the session
is left as it was. -/
def PayloadLayout.pastObject : PayloadLayout :=
  { store_errCode_ := fun self _ => self,
    store_errCodeParam_ := fun self _ => self }

/-- Modelled from the spec: the declaration of `ManagedRepoMap` is not among the sources.  The spec
calls it a mapping from key to repository resource and the code uses `ManagedRepoMap[key]` and
`ManagedRepoMap.erase(key)`, the interface of the standard associative containers.  `none` is an
absent key, `some r` a key mapped to the (possibly null) repository pointer `r`. -/
abbrev RepoMap := Int → Option (Option Nat)

/-- `ManagedRepoMap[key]` read as a value: the standard containers' `operator[]` returns the
mapped value and, when the key is absent, first inserts a value-initialised (null) entry. -/
def RepoMap.index (m : RepoMap) (key : Int) : Option Nat × RepoMap :=
  match m key with
  | some r => (r, m)
  | none => (none, Function.update m key (some none))

/-- `ManagedRepoMap[key] = repo`. -/
def RepoMap.assign (m : RepoMap) (key : Int) (repo : Option Nat) : RepoMap :=
  Function.update m key (some repo)

/-- `ManagedRepoMap.erase(key)`. -/
def RepoMap.erase (m : RepoMap) (key : Int) : RepoMap :=
  Function.update m key none

/-- The registry with no key registered. -/
def RepoMap.empty : RepoMap := fun _ => none

/-- What the host sends on the link: an integer, a string, or anything else. -/
inductive MLArg where
  | MLTKINT (key : Int)
  | MLTKSTR (path : String)
  | other
  deriving DecidableEq, Repr

namespace GitLinkRepository

/-- Modelled from the spec: `isValid` is declared in `GitLinkRepository.h`, which is not among the
sources; a session is valid when it holds a repository resource (`repo_` is not null). -/
def isValid (self : GitLinkRepository) : Bool :=
  self.repo_.isSome

/-- `GitLinkRepository::GitLinkRepository(mint key)`.  `errCode_` and `errCodeParam_` are not
initialised by the constructor; every operation that reads them assigns them first. -/
def ofMint (ManagedRepoMap : RepoMap) (key : Int) : GitLinkRepository × RepoMap :=
  let (repo, ManagedRepoMap) := ManagedRepoMap.index key
  ({ key_ := key, repo_ := repo, remoteName_ := none, remote_ := none, committer_ := none,
     privateKeyFile_ := none, errCode_ := none, errCodeParam_ := none }, ManagedRepoMap)

/-- `GitLinkRepository::GitLinkRepository(MLINK lnk)`.  `BAD_KEY` is declared outside the sources
and `canonicalizePath` calls the operating system, so both are parameters; `git_repository_open`
is the engine's answer for a path. -/
def ofLink (BAD_KEY : Int) (canonicalizePath : String → String)
    (git_repository_open : String → Option Nat) (ManagedRepoMap : RepoMap) (lnk : MLArg) :
    GitLinkRepository × RepoMap × List EngineCall :=
  let self : GitLinkRepository :=
    { key_ := BAD_KEY, repo_ := none, remoteName_ := none, remote_ := none, committer_ := none,
      privateKeyFile_ := none, errCode_ := none, errCodeParam_ := none }
  match lnk with
  | .MLTKINT key =>
    let (repo, ManagedRepoMap) := ManagedRepoMap.index key
    ({ self with key_ := key, repo_ := repo }, ManagedRepoMap, [])
  | .MLTKSTR path =>
    let repoPath := canonicalizePath path
    if repoPath ≠ "" then
      match git_repository_open repoPath with
      | some r => ({ self with repo_ := some r }, ManagedRepoMap, [.git_repository_open repoPath])
      | none =>
        (self, ManagedRepoMap, [.git_repository_open repoPath, .git_repository_free none])
    else (self, ManagedRepoMap, [])
  | .other => (self, ManagedRepoMap, [])

/-- `GitLinkRepository::setKey`. -/
def setKey (self : GitLinkRepository) (ManagedRepoMap : RepoMap) (key : Int) :
    GitLinkRepository × RepoMap :=
  ({ self with key_ := key }, ManagedRepoMap.assign key self.repo_)

/-- `GitLinkRepository::unsetKey`. -/
def unsetKey (BAD_KEY : Int) (self : GitLinkRepository) (ManagedRepoMap : RepoMap) :
    GitLinkRepository × RepoMap :=
  ({ self with key_ := BAD_KEY }, ManagedRepoMap.erase self.key_)

/-- `GitLinkRepository::committer`: nothing on a session without repository; otherwise the old
signature is freed and a new one requested.  The return code of `git_signature_default` is
ignored and a failing call leaves `committer_` as it was. -/
def committer (e : Engine) (self : GitLinkRepository) : Run (Option Nat) :=
  match self.repo_ with
  | none => ⟨none, self, []⟩
  | some repo =>
    let freed : List EngineCall :=
      match self.committer_ with
      | some c => [.git_signature_free c]
      | none => []
    let committer_ : Option Nat :=
      match e.git_signature_default with
      | some c => some c
      | none => self.committer_
    ⟨committer_, { self with committer_ := committer_ }, freed ++ [.git_signature_default repo]⟩

/-- The test of the one-level cache at the top of `setRemote_`:
`remoteName_ && strcmp(remoteName, remoteName_) == 0 && remote_ &&
 privateKeyFile_ && strcmp(privateKeyFile, privateKeyFile_) == 0`. -/
def cacheHit (self : GitLinkRepository) (remoteName privateKeyFile : String) : Bool :=
  (match self.remoteName_ with
    | some n => remoteName == n
    | none => false) &&
  self.remote_.isSome &&
  (match self.privateKeyFile_ with
    | some k => privateKeyFile == k
    | none => false)

/-- `GitLinkRepository::setRemote_`.  Both arguments are C strings (not null), so the source's
`privateKeyFile && *privateKeyFile` is `privateKeyFile ≠ ""`.  The `free` of the two cached
strings is not an engine call and is not logged. -/
def setRemote_ (e : Engine) (self : GitLinkRepository) (remoteName privateKeyFile : String) :
    Run Bool :=
  if cacheHit self remoteName privateKeyFile then
    ⟨true, self, []⟩
  else
    let freed : List EngineCall :=
      match self.remote_ with
      | some r => [.git_remote_free r]
      | none => []
    let self := { self with remoteName_ := none, privateKeyFile_ := none }
    match e.git_remote_load with
    | none =>
      ⟨false, { self with remote_ := none }, freed ++ [.git_remote_load self.repo_ remoteName]⟩
    | some r =>
      let self := { self with remote_ := some r }
      let self :=
        if privateKeyFile ≠ "" then { self with privateKeyFile_ := some privateKeyFile } else self
      if e.git_remote_set_callbacks then
        ⟨true, { self with remoteName_ := some remoteName },
          freed ++ [.git_remote_load self.repo_ remoteName, .git_remote_set_callbacks r]⟩
      else
        ⟨false, { self with remote_ := none },
          freed ++ [.git_remote_load self.repo_ remoteName, .git_remote_set_callbacks r,
            .git_remote_free r]⟩

/-- `GitLinkRepository::fetch`.  `prune` is not used by the source.  After a failing connect,
download or update-tips the source assigns the error kind and then reads
`giterr_last()->message`; when the failing call left no last error that read is through a null
pointer and `fetch` does not return. -/
def fetch (e : Engine) (self : GitLinkRepository) (remoteName privateKeyFile : String)
    (prune : Bool) : Exit Bool :=
  let self := { self with errCode_ := none, errCodeParam_ := none }
  let connected : Exit Unit :=
    if !self.isValid then
      ⟨some (), { self with errCode_ := some .BadRepo }, [.giterr_clear]⟩
    else
      let r := setRemote_ e self remoteName privateKeyFile
      if !r.ret then
        ⟨some (), { r.self with errCode_ := some .BadRemote }, .giterr_clear :: r.calls⟩
      else
        let calls := .giterr_clear :: r.calls ++
          [.git_remote_connect r.self.remote_ .GIT_DIRECTION_FETCH]
        match e.git_remote_connect with
        | .fail giterr_last =>
          let self := { r.self with errCode_ := some .RemoteConnectionFailed }
          match giterr_last with
          | some message => ⟨some (), { self with errCodeParam_ := some message }, calls⟩
          | none => ⟨none, self, calls⟩
        | .ok => ⟨some (), r.self, calls⟩
  match connected.ret with
  | none => ⟨none, connected.self, connected.calls⟩
  | some _ =>
    if connected.self.errCode_.isSome then
      ⟨some false, connected.self, connected.calls⟩
    else
      let self := connected.self
      let downloaded : Exit Unit :=
        match e.git_remote_download with
        | .fail giterr_last =>
          let calls : List EngineCall := [.git_remote_download self.remote_]
          let self := { self with errCode_ := some .DownloadFailed }
          match giterr_last with
          | some message => ⟨some (), { self with errCodeParam_ := some message }, calls⟩
          | none => ⟨none, self, calls⟩
        | .ok =>
          let c := committer e self
          let calls := .git_remote_download self.remote_ :: c.calls ++
            [.git_remote_update_tips self.remote_ c.ret "Wolfram gitlink: fetch"]
          match e.git_remote_update_tips with
          | .fail giterr_last =>
            let self := { c.self with errCode_ := some .UpdateTipsFailed }
            match giterr_last with
            | some message => ⟨some (), { self with errCodeParam_ := some message }, calls⟩
            | none => ⟨none, self, calls⟩
          | .ok => ⟨some (), c.self, calls⟩
      match downloaded.ret with
      | none => ⟨none, downloaded.self, connected.calls ++ downloaded.calls⟩
      | some _ =>
        ⟨some downloaded.self.errCode_.isNone, downloaded.self,
          connected.calls ++ downloaded.calls ++
            [.git_remote_disconnect downloaded.self.remote_]⟩

/-- `GitLinkRepository::pushCallBack_`.  `data` is the session and `layout` says what the stores
through `repo`, the payload cast to `GitLinkRepository*`, do to it.  `giterr_last` is what
`giterr_last()` returns when the callback runs.  With a rejection message the source stores the
error kind and then reads `giterr_last()->message`; with no last error that read is through a
null pointer and the callback does not return (`none`).  The content of `msg` is not used. -/
def pushCallBack_ (layout : PayloadLayout) (giterr_last : Option String) (ref : String)
    (msg : Option String) (data : GitLinkRepository) : Option Int × GitLinkRepository :=
  match msg with
  | some _ =>
    let data := layout.store_errCode_ data .RefNotPushed
    match giterr_last with
    | some message => (some 1, layout.store_errCodeParam_ data message)
    | none => (none, data)
  | none => (some 0, data)

/-- The engine's `git_push_status_foreach`: the callback is called for each reported ref in
order, and the enumeration stops at the first call that returns non-zero (or does not return).
The result is the return code, `none` when a callback did not return. -/
def git_push_status_foreach
    (cb : String → Option String → GitLinkRepository → Option Int × GitLinkRepository) :
    List (String × Option String) → GitLinkRepository → Option Int × GitLinkRepository
  | [], data => (some 0, data)
  | (ref, msg) :: rest, data =>
    match cb ref msg data with
    | (none, data) => (none, data)
    | (some rc, data) =>
      if rc ≠ 0 then (some rc, data) else git_push_status_foreach cb rest data

/-- The second `if`/`else if` chain of `push` (from `git_push_new` to the status enumeration):
it returns `pushObject`, null when `git_push_new` failed.  The return code of
`git_push_status_foreach` is ignored by the source. -/
def pushSet (layout : PayloadLayout) (e : Engine) (self : GitLinkRepository)
    (branchName : String) : Exit (Option Nat) :=
  match e.git_push_new with
  | none =>
    ⟨some none, { self with errCode_ := some .BadPush }, [.git_push_new self.remote_]⟩
  | some pushObject =>
    let calls : List EngineCall :=
      [.git_push_new self.remote_, .git_push_add_refspec pushObject branchName]
    if !e.git_push_add_refspec then
      ⟨some (some pushObject), { self with errCode_ := some .BadCommitish }, calls⟩
    else
      let calls := calls ++ [.git_push_finish pushObject]
      match e.git_push_finish with
      | .fail giterr_last =>
        let self := { self with errCode_ := some .PushUnfinished }
        match giterr_last with
        | some message =>
          ⟨some (some pushObject), { self with errCodeParam_ := some message }, calls⟩
        | none => ⟨none, self, calls⟩
      | .ok =>
        let calls := calls ++ [.git_push_unpack_ok pushObject]
        if !e.git_push_unpack_ok then
          ⟨some (some pushObject), { self with errCode_ := some .RemoteUnpackFailed }, calls⟩
        else if self.errCode_.isNone then
          let calls := calls ++ [.git_push_status_foreach pushObject]
          match git_push_status_foreach (pushCallBack_ layout e.giterr_last) e.push_status
              self with
          | (none, self) => ⟨none, self, calls⟩
          | (some _, self) => ⟨some (some pushObject), self, calls⟩
        else ⟨some (some pushObject), self, calls⟩

/-- The statement `if (pushObject) git_push_free(pushObject);` of `push`. -/
def freePush : Option Nat → List EngineCall
  | some pushObject => [.git_push_free pushObject]
  | none => []

/-- `GitLinkRepository::push`.  `lnk` is not used by the source.  `push` does not return when
`giterr_last()` is null at the read after a failing `git_push_finish` or in the status
callback. -/
def push (layout : PayloadLayout) (e : Engine) (self : GitLinkRepository)
    (remoteName privateKeyFile branchName : String) : Exit Bool :=
  let self := { self with errCode_ := none, errCodeParam_ := none }
  let connected : Run Unit :=
    if !self.isValid then
      ⟨(), { self with errCode_ := some .BadRepo }, []⟩
    else
      let r := setRemote_ e self remoteName privateKeyFile
      if !r.ret then
        ⟨(), { r.self with errCode_ := some .BadRemote }, r.calls⟩
      else
        let calls := r.calls ++ [.git_remote_connect r.self.remote_ .GIT_DIRECTION_PUSH]
        if e.git_remote_connect.succeeded then ⟨(), r.self, calls⟩
        else ⟨(), { r.self with errCode_ := some .RemoteConnectionFailed }, calls⟩
  if connected.self.errCode_.isSome then
    ⟨some false, connected.self, connected.calls⟩
  else
    let pushed := pushSet layout e connected.self branchName
    match pushed.ret with
    | none => ⟨none, pushed.self, connected.calls ++ pushed.calls⟩
    | some pushObject =>
      ⟨some pushed.self.errCode_.isNone, pushed.self,
        connected.calls ++ pushed.calls ++ freePush pushObject ++
          [.git_remote_disconnect pushed.self.remote_]⟩

end GitLinkRepository

/-! ## Credential callback -/

/-- `GIT_CREDTYPE_USERPASS_PLAINTEXT` of the engine's `git_credtype_t`. -/
def GIT_CREDTYPE_USERPASS_PLAINTEXT : Nat := 1

/-- `GIT_CREDTYPE_SSH_KEY` of the engine's `git_credtype_t`. -/
def GIT_CREDTYPE_SSH_KEY : Nat := 2

/-- `GIT_CREDTYPE_DEFAULT` of the engine's `git_credtype_t`. -/
def GIT_CREDTYPE_DEFAULT : Nat := 8

/-- `GIT_CREDTYPE_SSH_INTERACTIVE` of the engine's `git_credtype_t`. -/
def GIT_CREDTYPE_SSH_INTERACTIVE : Nat := 16

/-- A credential object the engine built. -/
inductive Cred where
  | default
  | ssh_key (username : Option String) (publickey privatekey passphrase : String)
  deriving DecidableEq, Repr

/-- What `AcquireCredsCallBack` hands back to the engine: its return value, the content of the
`cred` out-parameter afterwards, and the engine calls it made. -/
structure CredResult where
  ret : Int
  cred : Option Cred
  calls : List EngineCall
  deriving DecidableEq, Repr

namespace GitLinkRepository

/-- Modelled from the spec: the accessor `privateKeyFile()` is declared in `GitLinkRepository.h`,
which is not among the sources; it gives the private-key file path configured on the session,
null when there is none. -/
def privateKeyFile (self : GitLinkRepository) : Option String :=
  self.privateKeyFile_

/-- `GitLinkRepository::AcquireCredsCallBack`.  `cred` is the content of the out-parameter on
entry; `default_new_ok` and `ssh_key_new_ok` say whether the engine's two constructors succeed
(their return codes are ignored by the source, and a failing one leaves `*cred` alone).  The
second branch, which needs the key-file path it tests for null, is a `match` on that path. -/
def AcquireCredsCallBack (default_new_ok ssh_key_new_ok : Bool) (cred : Option Cred)
    (url username : Option String) (allowed_types : Nat) (payload : GitLinkRepository) :
    CredResult :=
  let repo := payload
  if allowed_types &&& GIT_CREDTYPE_DEFAULT ≠ 0 then
    ⟨0, if default_new_ok then some .default else cred, [.git_cred_default_new]⟩
  else
    match (if allowed_types &&& GIT_CREDTYPE_SSH_KEY ≠ 0 then repo.privateKeyFile else none) with
    | some privateKeyFile =>
      let pubKeyFile := privateKeyFile ++ ".pub"
      ⟨0, if ssh_key_new_ok then some (.ssh_key username pubKeyFile privateKeyFile "") else cred,
        [.git_cred_ssh_key_new username pubKeyFile privateKeyFile ""]⟩
    | none =>
      if allowed_types &&& GIT_CREDTYPE_USERPASS_PLAINTEXT ≠ 0 then
        ⟨0, cred, []⟩
      else if allowed_types &&& GIT_CREDTYPE_SSH_INTERACTIVE ≠ 0 then
        ⟨0, cred, []⟩
      else
        ⟨0, cred, []⟩

end GitLinkRepository

/-! ## Serialisation to the host link -/

/-- The `git_branch_t` values the source passes to `writeBranchList_`. -/
inductive git_branch_t where
  | GIT_BRANCH_LOCAL
  | GIT_BRANCH_REMOTE
  deriving DecidableEq, Repr

/-- The `git_status_t` flags the source passes to `putRule`. -/
inductive git_status_t where
  | GIT_STATUS_INDEX_NEW
  | GIT_STATUS_INDEX_MODIFIED
  | GIT_STATUS_INDEX_DELETED
  | GIT_STATUS_INDEX_RENAMED
  | GIT_STATUS_INDEX_TYPECHANGE
  | GIT_STATUS_WT_NEW
  | GIT_STATUS_WT_MODIFIED
  | GIT_STATUS_WT_DELETED
  | GIT_STATUS_WT_TYPECHANGE
  deriving DecidableEq, Repr

/-- What the code sends to the host link: `MLPutSymbol` directly, or a call of an `MLHelper`
method (`MLHelper.h` is not among the sources, so each method call is recorded as such, one
constructor per overload of `putRule`; `helper` and `helperEnd` are the construction of the
helper object and the end of its scope). -/
inductive LinkCall where
  | MLPutSymbol (s : String)
  | helper
  | helperEnd
  | beginFunction (head : String)
  | endFunction
  | beginList
  | endList
  | putString (s : String)
  | putRule (key : String)
  | putRuleInt (key : String) (value : Int)
  | putRuleString (key : String) (value : Option String)
  | putRuleState (key : String) (value : Int)
  | putRuleStatus (key : String) (statusList : Nat) (flag : git_status_t)
  deriving DecidableEq, Repr

/-- An entry of the index; only `path` is read. -/
structure git_index_entry where
  path : String
  deriving DecidableEq, Repr

/-- One step of the conflict iterator: the three out-pointers of `git_index_conflict_next`, each
null when that side has no entry. -/
structure Conflict where
  ancestor : Option git_index_entry
  ours : Option git_index_entry
  theirs : Option git_index_entry
  deriving DecidableEq, Repr

/-- What the engine reports about one loaded remote; a refspec list is `none` when its query
fails. -/
structure RemoteView where
  url : Option String
  pushurl : Option String
  fetch_refspecs : Option (List String)
  push_refspecs : Option (List String)
  deriving DecidableEq, Repr

/-- What the engine reports about the repository of a session. -/
structure RepoView where
  is_shallow : Int
  is_bare : Int
  head_detached : Int
  path : Option String
  workdir : Option String
  get_namespace : Option String
  state : Int
  /-- The conflicts the iterator yields, in its order, before it reports the end. -/
  conflicts : List Conflict
  /-- The names `git_remote_list` yields (`none` when it fails), each with what
  `git_remote_load` gives for it (`none` when it fails). -/
  remote_list : Option (List (String × Option RemoteView))
  branches : git_branch_t → List String
  /-- The handle `git_status_list_new` yields, `none` when it fails. -/
  status_list_new : Option Nat

namespace GitLinkRepository

/-- The loop of `writeConflictList_`: `helper.putString(ancestor->path)` for each conflict.
Reading `path` through a null `ancestor` is the fault `none`. -/
def conflictLoop : List Conflict → Option (List LinkCall)
  | [] => some []
  | c :: rest =>
    match c.ancestor with
    | none => none
    | some ancestor =>
      match conflictLoop rest with
      | none => none
      | some calls => some (.putString ancestor.path :: calls)

/-- `GitLinkRepository::writeConflictList_`. -/
def writeConflictList_ (v : RepoView) : Option (List LinkCall) :=
  match conflictLoop v.conflicts with
  | none => none
  | some calls => some ([.beginList] ++ calls ++ [.endList])

/-- A list of refspecs between `beginList` and `endList`; nothing inside when the query failed. -/
def writeRefspecs (refspecs : Option (List String)) : List LinkCall :=
  [.beginList] ++
    (match refspecs with
      | some l => l.map .putString
      | none => []) ++
    [.endList]

/-- The body of the loop of `writeRemoteList_` for one remote name. -/
def writeRemote : String × Option RemoteView → List LinkCall
  | (_, none) => []
  | (name, some remote) =>
    [.putRule name, .beginFunction "Association",
      .putRuleString "FetchURL" remote.url,
      .putRuleString "PushURL" (if remote.pushurl = none then remote.url else remote.pushurl),
      .putRule "FetchRefSpecs"] ++
    writeRefspecs remote.fetch_refspecs ++
    [.putRule "PushRefSpecs"] ++
    writeRefspecs remote.push_refspecs ++
    [.endFunction]

/-- `GitLinkRepository::writeRemoteList_`. -/
def writeRemoteList_ (v : RepoView) : List LinkCall :=
  [.beginFunction "Association"] ++
    (match v.remote_list with
      | some remotes => (remotes.map writeRemote).flatten
      | none => []) ++
    [.endFunction]

/-- `GitLinkRepository::writeBranchList_`. -/
def writeBranchList_ (v : RepoView) (flag : git_branch_t) : List LinkCall :=
  [.beginList] ++ (v.branches flag).map .putString ++ [.endList]

/-- `GitLinkRepository::writeProperties`. -/
def writeProperties (self : GitLinkRepository) (v : RepoView) : Option (List LinkCall) :=
  if self.isValid then
    match writeConflictList_ v with
    | none => none
    | some conflicts =>
      some ([.helper, .beginFunction "Association",
          .putRuleInt "ShallowQ" v.is_shallow,
          .putRuleInt "BareQ" v.is_bare,
          .putRuleInt "DetachedHeadQ" v.head_detached,
          .putRuleString "GitDirectory" v.path,
          .putRuleString "WorkingDirectory" v.workdir,
          .putRuleString "Namespace" v.get_namespace,
          .putRuleState "State" v.state,
          .putRule "Conflicts"] ++ conflicts ++
        [.putRule "Remotes"] ++ writeRemoteList_ v ++
        [.putRule "LocalBranches"] ++ writeBranchList_ v .GIT_BRANCH_LOCAL ++
        [.putRule "RemoteBranches"] ++ writeBranchList_ v .GIT_BRANCH_REMOTE ++
        [.helperEnd])
  else
    some [.MLPutSymbol "$Failed"]

/-- `GitLinkRepository::writeStatus`.  `git_status_list_new` is only called on a valid session
(`isValid() && !git_status_list_new(…)`). -/
def writeStatus (self : GitLinkRepository) (v : RepoView) : List LinkCall :=
  match (if self.isValid then v.status_list_new else none) with
  | some statusList =>
    [.helper, .beginFunction "Association",
      .putRuleStatus "Untracked" statusList .GIT_STATUS_WT_NEW,
      .putRuleStatus "Modified" statusList .GIT_STATUS_WT_MODIFIED,
      .putRuleStatus "Deleted" statusList .GIT_STATUS_WT_DELETED,
      .putRuleStatus "TypeChange" statusList .GIT_STATUS_WT_TYPECHANGE,
      .putRuleStatus "IndexNew" statusList .GIT_STATUS_INDEX_NEW,
      .putRuleStatus "IndexModified" statusList .GIT_STATUS_INDEX_MODIFIED,
      .putRuleStatus "IndexDeleted" statusList .GIT_STATUS_INDEX_DELETED,
      .putRuleStatus "IndexTypeChange" statusList .GIT_STATUS_INDEX_TYPECHANGE,
      .putRuleStatus "IndexRenamed" statusList .GIT_STATUS_INDEX_RENAMED,
      .helperEnd]
  | none => [.MLPutSymbol "$Failed"]

end GitLinkRepository

/-! ## Concrete sessions and engine answers used in the evaluations below -/

/-- A session that holds repository `0`, with nothing cached and no key. -/
def validSession : GitLinkRepository :=
  { key_ := 0, repo_ := some 0, remoteName_ := none, remote_ := none, committer_ := none,
    privateKeyFile_ := none, errCode_ := none, errCodeParam_ := none }

/-- A session without repository (a failed open or lookup). -/
def invalidSession : GitLinkRepository :=
  { validSession with repo_ := none }

/-- A repository with one remote, one local branch and no conflicts, whose status list can be
computed. -/
def sampleView : RepoView :=
  { is_shallow := 0, is_bare := 0, head_detached := 0,
    path := some "/r/.git/", workdir := some "/r/", get_namespace := none, state := 0,
    conflicts := [],
    remote_list := some [("origin",
      some { url := some "u", pushurl := none,
             fetch_refspecs := some ["+refs/heads/*:refs/remotes/origin/*"],
             push_refspecs := some [] })],
    branches := fun flag =>
      match flag with
      | .GIT_BRANCH_LOCAL => ["main"]
      | .GIT_BRANCH_REMOTE => ["origin/main"],
    status_list_new := some 0 }

/-- The same repository when `git_status_list_new` fails. -/
def statusFailsView : RepoView :=
  { sampleView with status_list_new := none }

/-- The same repository with one conflict in which both sides added the file, so that the
conflict has no ancestor entry. -/
def bothAddedView : RepoView :=
  { sampleView with
    conflicts := [{ ancestor := none, ours := some ⟨"a.txt"⟩, theirs := some ⟨"a.txt"⟩ }] }

/-- An engine whose every call succeeds: it loads the remote as connection `1`, builds push-set
`5`, reports no rejected ref and has no last error. -/
def okEngine : Engine :=
  { git_remote_load := some 1, git_remote_set_callbacks := true, git_remote_connect := .ok,
    git_remote_download := .ok, git_signature_default := some 3, git_remote_update_tips := .ok,
    git_push_new := some 5, git_push_add_refspec := true, git_push_finish := .ok,
    git_push_unpack_ok := true,
    push_status := [("refs/heads/main", none), ("refs/heads/dev", none)],
    giterr_last := none }

/-- The engine on a later call, when it loads the remote as a new connection `2`. -/
def reloadEngine : Engine :=
  { okEngine with git_remote_load := some 2 }

/-- Three refs are pushed and the remote rejects exactly one of them; no engine call failed, so
the engine has no last error. -/
def rejectEngine : Engine :=
  { okEngine with
    push_status := [("refs/heads/main", none), ("refs/heads/dev", some "non-fast-forward"),
      ("refs/heads/topic", none)] }

/-- The same push when an earlier, unrelated failure left a last error in the engine. -/
def staleErrorEngine : Engine :=
  { rejectEngine with giterr_last := some "config value user.name was not found" }

/-- The push of `staleErrorEngine` when the rejected ref carries the message `msg`. -/
def staleErrorEngineWith (msg : String) : Engine :=
  { staleErrorEngine with
    push_status := [("refs/heads/main", none), ("refs/heads/dev", some msg),
      ("refs/heads/topic", none)] }

/-- The engine when the remote name cannot be loaded. -/
def loadFailsEngine : Engine :=
  { okEngine with git_remote_load := none }

/-- The engine when the connection cannot be established and the failure leaves a last error. -/
def connectFailsEngine : Engine :=
  { okEngine with git_remote_connect := .fail (some "failed to connect") }

/-- The engine when the connection cannot be established and the failing call leaves no last
error. -/
def connectNoErrorEngine : Engine :=
  { okEngine with git_remote_connect := .fail none }

/-- The engine when the download fails and the failing call leaves no last error. -/
def downloadNoErrorEngine : Engine :=
  { okEngine with git_remote_download := .fail none }

/-- The engine when updating the tips fails and the failing call leaves no last error. -/
def updateTipsNoErrorEngine : Engine :=
  { okEngine with git_remote_update_tips := .fail none }

/-- The engine when `git_push_finish` fails and the failing call leaves no last error. -/
def finishNoErrorEngine : Engine :=
  { okEngine with git_push_finish := .fail none }

/-- Whether an engine call is `git_remote_connect`. -/
def EngineCall.isConnect : EngineCall → Bool
  | .git_remote_connect _ _ => true
  | _ => false

/-- Whether an engine call is `git_remote_download`. -/
def EngineCall.isDownload : EngineCall → Bool
  | .git_remote_download _ => true
  | _ => false

/-- Whether an engine call belongs to the update-tips stage: `git_remote_update_tips` and the
signature calls `committer()` makes for its argument. -/
def EngineCall.isUpdateTips : EngineCall → Bool
  | .git_remote_update_tips _ _ _ => true
  | .git_signature_free _ => true
  | .git_signature_default _ => true
  | _ => false

/-- Whether an engine call is `git_remote_disconnect`. -/
def EngineCall.isDisconnect : EngineCall → Bool
  | .git_remote_disconnect _ => true
  | _ => false

/-- Whether an engine call is `git_remote_free`. -/
def EngineCall.isRemoteFree : EngineCall → Bool
  | .git_remote_free _ => true
  | _ => false

/-- Whether an engine call is `git_push_free`. -/
def EngineCall.isPushFree : EngineCall → Bool
  | .git_push_free _ => true
  | _ => false

/-- The calls made after the first `git_remote_connect` of a log. -/
def afterConnect : List EngineCall → List EngineCall
  | [] => []
  | c :: rest => if c.isConnect then rest else afterConnect rest

/-! ## Session registry -/

namespace GitLinkRepository

/-- Looking up a key that is registered leaves the registry as it was. -/
theorem ofMint_registered (m : RepoMap) (key : Int) (r : Option Nat) (h : m key = some r) :
    (ofMint m key).2 = m ∧ (ofMint m key).1.repo_ = r := by
  simp [ofMint, RepoMap.index, h]

/-- C6: after `setKey k` on a session, a session constructed by looking up `k` (through either
constructor) has the same repository resource and the key `k`, whatever the registry held for
`k` before; it is valid exactly when the first session is, and the lookup leaves the registry as
`setKey` left it. -/
theorem C6_setKey_then_lookup (self : GitLinkRepository) (m : RepoMap) (k BAD_KEY : Int)
    (canonicalizePath : String → String) (git_repository_open : String → Option Nat) :
    (ofMint (self.setKey m k).2 k).1.repo_ = self.repo_ ∧
    (ofMint (self.setKey m k).2 k).1.key_ = k ∧
    (ofMint (self.setKey m k).2 k).1.isValid = self.isValid ∧
    (ofMint (self.setKey m k).2 k).2 = (self.setKey m k).2 ∧
    (self.setKey m k).1.repo_ = self.repo_ ∧
    (self.setKey m k).1.key_ = k ∧
    (ofLink BAD_KEY canonicalizePath git_repository_open (self.setKey m k).2 (.MLTKINT k)).1.repo_
      = self.repo_ ∧
    (ofLink BAD_KEY canonicalizePath git_repository_open (self.setKey m k).2 (.MLTKINT k)).1.key_
      = k := by
  simp [ofMint, ofLink, setKey, RepoMap.index, RepoMap.assign, isValid]

/-- C10: on the registry with no key registered, constructing a session from key `7` yields an
invalid session but leaves `7` registered (mapped to the null resource), through either
constructor; the same happens for a key that was assigned and released again. -/
theorem C10_lookup_inserts_key :
    RepoMap.empty 7 = none ∧
    (ofMint RepoMap.empty 7).2 7 = some none ∧
    (ofMint RepoMap.empty 7).1.isValid = false ∧
    (ofLink (-1) id (fun _ => none) RepoMap.empty (.MLTKINT 7)).2.1 7 = some none ∧
    (unsetKey (-1) (validSession.setKey RepoMap.empty 7).1
      (validSession.setKey RepoMap.empty 7).2).2 7 = none ∧
    (ofMint (unsetKey (-1) (validSession.setKey RepoMap.empty 7).1
      (validSession.setKey RepoMap.empty 7).2).2 7).2 7 = some none := by
  simp [ofMint, ofLink, setKey, unsetKey, RepoMap.index, RepoMap.assign, RepoMap.erase,
    RepoMap.empty, isValid, validSession]

/-! ## Credential callback -/

/-- C4 (as stated, refuted): with only the plaintext mechanism permitted no credential is
supplied, and the callback does not return a non-zero result. -/
theorem C4_plaintext_only_returns_zero :
    GIT_CREDTYPE_USERPASS_PLAINTEXT &&& GIT_CREDTYPE_DEFAULT = 0 ∧
    GIT_CREDTYPE_USERPASS_PLAINTEXT &&& GIT_CREDTYPE_SSH_KEY = 0 ∧
    (AcquireCredsCallBack true true none none none GIT_CREDTYPE_USERPASS_PLAINTEXT
      validSession).cred = none ∧
    ¬ (AcquireCredsCallBack true true none none none GIT_CREDTYPE_USERPASS_PLAINTEXT
      validSession).ret ≠ 0 := by
  decide

/-- C4 (amended): when the default mechanism is not permitted, and key-pair is not permitted or
no private-key file is configured, the callback makes no engine call, leaves the credential
out-parameter as it found it and returns `0`. -/
theorem C4_no_credential_returns_zero (default_new_ok ssh_key_new_ok : Bool)
    (cred : Option Cred) (url username : Option String) (allowed_types : Nat)
    (payload : GitLinkRepository)
    (hdefault : allowed_types &&& GIT_CREDTYPE_DEFAULT = 0)
    (hkey : allowed_types &&& GIT_CREDTYPE_SSH_KEY = 0 ∨ payload.privateKeyFile = none) :
    (AcquireCredsCallBack default_new_ok ssh_key_new_ok cred url username allowed_types
      payload).ret = 0 ∧
    (AcquireCredsCallBack default_new_ok ssh_key_new_ok cred url username allowed_types
      payload).cred = cred ∧
    (AcquireCredsCallBack default_new_ok ssh_key_new_ok cred url username allowed_types
      payload).calls = [] := by
  rcases hkey with hkey | hkey <;> simp [AcquireCredsCallBack, hdefault, hkey]

/-- C4 (amended), at the interactive-only set of mechanisms. -/
theorem C4_no_credential_returns_zero_witness :
    (AcquireCredsCallBack true true none none (some "git") GIT_CREDTYPE_SSH_INTERACTIVE
      validSession).ret = 0 ∧
    (AcquireCredsCallBack true true none none (some "git") GIT_CREDTYPE_SSH_INTERACTIVE
      validSession).cred = none ∧
    (AcquireCredsCallBack true true none none (some "git") GIT_CREDTYPE_SSH_INTERACTIVE
      validSession).calls = [] :=
  C4_no_credential_returns_zero true true none none (some "git") GIT_CREDTYPE_SSH_INTERACTIVE
    validSession (by decide) (Or.inl (by decide))

/-! ## Serialisation -/

/-- When every conflict has an ancestor entry, the loop writes the ancestor paths in iterator
order. -/
theorem conflictLoop_of_ancestors (entries : List git_index_entry) (ours theirs :
    Option git_index_entry) :
    conflictLoop (entries.map fun a => ⟨some a, ours, theirs⟩)
      = some (entries.map fun a => .putString a.path) := by
  induction entries with
  | nil => rfl
  | cons a rest ih => simp [conflictLoop, ih]

/-- C7: for the conflict set with a single both-added conflict (no ancestor entry),
`writeConflictList_` reads `path` through the null ancestor: neither it nor `writeProperties`
on a valid session produces a list. -/
theorem C7_conflict_without_ancestor :
    bothAddedView.conflicts =
      [{ ancestor := none, ours := some ⟨"a.txt"⟩, theirs := some ⟨"a.txt"⟩ }] ∧
    writeConflictList_ bothAddedView = none ∧
    writeProperties validSession bothAddedView = none := by
  refine ⟨rfl, rfl, rfl⟩

/-- C9: on an invalid session `writeProperties` and `writeStatus` each send exactly the symbol
`$Failed`; `writeStatus` sends exactly that too on a valid session whose status list cannot be
computed. -/
theorem C9_failure_sentinel_only (self : GitLinkRepository) (v : RepoView) :
    (self.isValid = false →
      writeProperties self v = some [.MLPutSymbol "$Failed"] ∧
      writeStatus self v = [.MLPutSymbol "$Failed"]) ∧
    (self.isValid = true → v.status_list_new = none →
      writeStatus self v = [.MLPutSymbol "$Failed"]) := by
  constructor
  · intro h
    simp [writeProperties, writeStatus, h]
  · intro h hs
    simp [writeStatus, h, hs]

/-- C9, on a session without repository and on a valid one whose status list fails. -/
theorem C9_failure_sentinel_only_witness :
    (writeProperties invalidSession sampleView = some [.MLPutSymbol "$Failed"] ∧
      writeStatus invalidSession sampleView = [.MLPutSymbol "$Failed"]) ∧
    writeStatus validSession statusFailsView = [.MLPutSymbol "$Failed"] :=
  ⟨(C9_failure_sentinel_only invalidSession sampleView).1 rfl,
   (C9_failure_sentinel_only validSession statusFailsView).2 rfl rfl⟩

/-! ## Remote connection cache -/

/-- The cache test does not read the error state. -/
theorem cacheHit_setErr (self : GitLinkRepository) (a : Option ErrKind) (b : Option String)
    (remoteName privateKeyFile : String) :
    cacheHit { self with errCode_ := a, errCodeParam_ := b } remoteName privateKeyFile
      = cacheHit self remoteName privateKeyFile := rfl


/-- `setRemote_` neither reads nor writes the error state. -/
theorem setRemote__setErr (e : Engine) (self : GitLinkRepository) (a : Option ErrKind)
    (b : Option String) (remoteName privateKeyFile : String) :
    setRemote_ e { self with errCode_ := a, errCodeParam_ := b } remoteName privateKeyFile
      = ⟨(setRemote_ e self remoteName privateKeyFile).ret,
         { (setRemote_ e self remoteName privateKeyFile).self with
           errCode_ := a, errCodeParam_ := b },
         (setRemote_ e self remoteName privateKeyFile).calls⟩ := by
  unfold setRemote_
  rw [cacheHit_setErr]
  cases cacheHit self remoteName privateKeyFile
  · cases e.git_remote_load <;> cases e.git_remote_set_callbacks <;>
      by_cases hk : privateKeyFile = "" <;> simp [hk]
  · simp


/-- `committer` neither reads nor writes the error state. -/
theorem committer_setErr (e : Engine) (self : GitLinkRepository) (a : Option ErrKind)
    (b : Option String) :
    committer e { self with errCode_ := a, errCodeParam_ := b }
      = ⟨(committer e self).ret,
         { (committer e self).self with errCode_ := a, errCodeParam_ := b },
         (committer e self).calls⟩ := by
  rcases self with ⟨key, repo, rn, rem, com, pk, ec, ecp⟩
  cases repo <;> simp [committer]


/-- `committer` leaves the cached connection alone. -/
theorem committer_remote (e : Engine) (self : GitLinkRepository) :
    (committer e self).self.remote_ = self.remote_ := by
  rcases self with ⟨key, repo, rn, rem, com, pk, ec, ecp⟩
  cases repo <;> simp [committer]


/-- `setRemote_` makes no connect, download, update-tips, disconnect or push-free call. -/
theorem setRemote__calls (e : Engine) (self : GitLinkRepository)
    (remoteName privateKeyFile : String) :
    (setRemote_ e self remoteName privateKeyFile).calls.any EngineCall.isConnect = false ∧
    (setRemote_ e self remoteName privateKeyFile).calls.any EngineCall.isDownload = false ∧
    (setRemote_ e self remoteName privateKeyFile).calls.any EngineCall.isUpdateTips = false ∧
    (setRemote_ e self remoteName privateKeyFile).calls.any EngineCall.isDisconnect = false ∧
    (setRemote_ e self remoteName privateKeyFile).calls.any EngineCall.isPushFree = false := by
  unfold setRemote_
  cases cacheHit self remoteName privateKeyFile <;> cases e.git_remote_load <;>
    cases e.git_remote_set_callbacks <;> cases self.remote_ <;>
    simp [EngineCall.isConnect, EngineCall.isDownload, EngineCall.isUpdateTips,
      EngineCall.isDisconnect, EngineCall.isPushFree]


/-- Without a cache hit, a failing `git_remote_load` makes `setRemote_` fail. -/
theorem setRemote__load_fails (e : Engine) (self : GitLinkRepository)
    (remoteName privateKeyFile : String)
    (hc : cacheHit self remoteName privateKeyFile = false) (hl : e.git_remote_load = none) :
    (setRemote_ e self remoteName privateKeyFile).ret = false := by
  simp [setRemote_, hc, hl]


/-- `committer` makes no connect, download, disconnect or free call. -/
theorem committer_calls (e : Engine) (self : GitLinkRepository) :
    (committer e self).calls.any EngineCall.isConnect = false ∧
    (committer e self).calls.any EngineCall.isDownload = false ∧
    (committer e self).calls.any EngineCall.isDisconnect = false ∧
    (committer e self).calls.any EngineCall.isRemoteFree = false ∧
    (committer e self).calls.any EngineCall.isPushFree = false := by
  unfold committer
  cases self.repo_ <;> cases self.committer_ <;>
    simp [EngineCall.isConnect, EngineCall.isDownload, EngineCall.isDisconnect,
      EngineCall.isRemoteFree, EngineCall.isPushFree]


/-- A successful `setRemote_` leaves a connection object in the cache. -/
theorem setRemote__remote_isSome (e : Engine) (self : GitLinkRepository)
    (remoteName privateKeyFile : String)
    (hr : (setRemote_ e self remoteName privateKeyFile).ret = true) :
    (setRemote_ e self remoteName privateKeyFile).self.remote_.isSome = true := by
  revert hr
  unfold setRemote_
  cases hc : cacheHit self remoteName privateKeyFile
  · cases e.git_remote_load <;> cases e.git_remote_set_callbacks <;>
      by_cases hk : privateKeyFile = "" <;> simp [hk]
  · intro _
    simp only [cacheHit, Bool.and_eq_true] at hc
    simpa using hc.1.2


/-- On a cache hit `setRemote_` returns the cached connection and makes no engine call. -/
theorem setRemote__hit (e : Engine) (self : GitLinkRepository)
    (remoteName privateKeyFile : String)
    (h : cacheHit self remoteName privateKeyFile = true) :
    setRemote_ e self remoteName privateKeyFile = ⟨true, self, []⟩ := by
  simp [setRemote_, h]

/-- With a non-empty key-file path, a second `setRemote_` with the same arguments is a cache
hit: it returns the cached connection and makes no engine call. -/
theorem setRemote__twice_with_key (e1 e2 : Engine) (self : GitLinkRepository)
    (remoteName privateKeyFile : String) (hk : privateKeyFile ≠ "")
    (hr : (setRemote_ e1 self remoteName privateKeyFile).ret = true) :
    setRemote_ e2 (setRemote_ e1 self remoteName privateKeyFile).self remoteName privateKeyFile
      = ⟨true, (setRemote_ e1 self remoteName privateKeyFile).self, []⟩ := by
  have hit : cacheHit (setRemote_ e1 self remoteName privateKeyFile).self remoteName
      privateKeyFile = true := by
    revert hr
    unfold setRemote_
    cases hc : cacheHit self remoteName privateKeyFile
    · cases e1.git_remote_load <;> cases e1.git_remote_set_callbacks <;>
        simp [hk, cacheHit]
    · simp [hc]
  exact setRemote__hit e2 _ _ _ hit

/-- C3: with the empty key-file path, a second `setRemote_` with the same arguments is not a
cache hit: after a first successful call that cached connection `1`, the second call frees
connection `1`, loads the remote from the engine again and caches the new connection `2`; when
that second load fails the call fails and the cache is left empty. -/
theorem C3_empty_key_file_reloads :
    (setRemote_ okEngine validSession "origin" "").ret = true ∧
    (setRemote_ okEngine validSession "origin" "").self.remote_ = some 1 ∧
    (setRemote_ reloadEngine (setRemote_ okEngine validSession "origin" "").self
      "origin" "").calls
      = [.git_remote_free 1, .git_remote_load (some 0) "origin", .git_remote_set_callbacks 2] ∧
    (setRemote_ reloadEngine (setRemote_ okEngine validSession "origin" "").self
      "origin" "").self.remote_ = some 2 ∧
    (setRemote_ loadFailsEngine
      (setRemote_ okEngine validSession "origin" "").self "origin" "").ret = false ∧
    (setRemote_ loadFailsEngine
      (setRemote_ okEngine validSession "origin" "").self "origin" "").self.remote_ = none := by
  decide

/-! ## Fetch -/

/-- `fetch` on an invalid session. -/
theorem fetch_invalid (e : Engine) (self : GitLinkRepository)
    (remoteName privateKeyFile : String) (prune : Bool) (hv : self.isValid = false) :
    fetch e self remoteName privateKeyFile prune
      = ⟨some false, { self with errCode_ := some .BadRepo, errCodeParam_ := none },
          [.giterr_clear]⟩ := by
  have hv2 : isValid { self with errCode_ := none, errCodeParam_ := none } = false := hv
  simp [fetch, hv2]

/-- `fetch` when the remote cannot be resolved. -/
theorem fetch_badRemote (e : Engine) (self : GitLinkRepository)
    (remoteName privateKeyFile : String) (prune : Bool) (hv : self.isValid = true)
    (hr : (setRemote_ e self remoteName privateKeyFile).ret = false) :
    fetch e self remoteName privateKeyFile prune
      = ⟨some false, { (setRemote_ e self remoteName privateKeyFile).self with
                  errCode_ := some .BadRemote, errCodeParam_ := none },
          .giterr_clear :: (setRemote_ e self remoteName privateKeyFile).calls⟩ := by
  have hv2 : isValid { self with errCode_ := none, errCodeParam_ := none } = true := hv
  simp [fetch, hv2, setRemote__setErr, hr]

/-- `fetch` when the connection cannot be established: it returns failure when the failing call
left a last error `g` and does not return when it left none; no later call is made. -/
theorem fetch_connectFailed (e : Engine) (self : GitLinkRepository)
    (remoteName privateKeyFile : String) (prune : Bool) (g : Option String)
    (hv : self.isValid = true)
    (hr : (setRemote_ e self remoteName privateKeyFile).ret = true)
    (hc : e.git_remote_connect = .fail g) :
    fetch e self remoteName privateKeyFile prune
      = ⟨g.map fun _ => false,
          { (setRemote_ e self remoteName privateKeyFile).self with
            errCode_ := some .RemoteConnectionFailed, errCodeParam_ := g },
          .giterr_clear :: (setRemote_ e self remoteName privateKeyFile).calls ++
            [.git_remote_connect (setRemote_ e self remoteName privateKeyFile).self.remote_
              .GIT_DIRECTION_FETCH]⟩ := by
  have hv2 : isValid { self with errCode_ := none, errCodeParam_ := none } = true := hv
  cases g <;> simp [fetch, hv2, setRemote__setErr, hr, hc]

/-- `fetch` when the download fails after a successful connect: it disconnects and returns
failure when the failing call left a last error `g`; when it left none `fetch` does not return
and the connection is not disconnected. -/
theorem fetch_downloadFailed (e : Engine) (self : GitLinkRepository)
    (remoteName privateKeyFile : String) (prune : Bool) (g : Option String)
    (hv : self.isValid = true)
    (hr : (setRemote_ e self remoteName privateKeyFile).ret = true)
    (hc : e.git_remote_connect = .ok) (hd : e.git_remote_download = .fail g) :
    fetch e self remoteName privateKeyFile prune
      = ⟨g.map fun _ => false,
          { (setRemote_ e self remoteName privateKeyFile).self with
            errCode_ := some .DownloadFailed, errCodeParam_ := g },
          .giterr_clear :: (setRemote_ e self remoteName privateKeyFile).calls ++
            [.git_remote_connect (setRemote_ e self remoteName privateKeyFile).self.remote_
              .GIT_DIRECTION_FETCH,
             .git_remote_download (setRemote_ e self remoteName privateKeyFile).self.remote_] ++
            (match g with
              | some _ => [.git_remote_disconnect
                  (setRemote_ e self remoteName privateKeyFile).self.remote_]
              | none => [])⟩ := by
  have hv2 : isValid { self with errCode_ := none, errCodeParam_ := none } = true := hv
  cases g <;> simp [fetch, hv2, setRemote__setErr, hr, hc, hd]

/-- `fetch` when updating the tips fails after a successful download, likewise. -/
theorem fetch_updateTipsFailed (e : Engine) (self : GitLinkRepository)
    (remoteName privateKeyFile : String) (prune : Bool) (g : Option String)
    (hv : self.isValid = true)
    (hr : (setRemote_ e self remoteName privateKeyFile).ret = true)
    (hc : e.git_remote_connect = .ok) (hd : e.git_remote_download = .ok)
    (ht : e.git_remote_update_tips = .fail g) :
    fetch e self remoteName privateKeyFile prune
      = ⟨g.map fun _ => false,
          { (committer e (setRemote_ e self remoteName privateKeyFile).self).self with
            errCode_ := some .UpdateTipsFailed, errCodeParam_ := g },
          .giterr_clear :: (setRemote_ e self remoteName privateKeyFile).calls ++
            [.git_remote_connect (setRemote_ e self remoteName privateKeyFile).self.remote_
              .GIT_DIRECTION_FETCH,
             .git_remote_download (setRemote_ e self remoteName privateKeyFile).self.remote_] ++
            (committer e (setRemote_ e self remoteName privateKeyFile).self).calls ++
            [.git_remote_update_tips (setRemote_ e self remoteName privateKeyFile).self.remote_
               (committer e (setRemote_ e self remoteName privateKeyFile).self).ret
               "Wolfram gitlink: fetch"] ++
            (match g with
              | some _ => [.git_remote_disconnect
                  (setRemote_ e self remoteName privateKeyFile).self.remote_]
              | none => [])⟩ := by
  have hv2 : isValid { self with errCode_ := none, errCodeParam_ := none } = true := hv
  cases g <;>
    simp [fetch, hv2, setRemote__setErr, hr, hc, hd, ht, committer_setErr, committer_remote]

/-- `fetch` when every stage succeeds. -/
theorem fetch_ok (e : Engine) (self : GitLinkRepository)
    (remoteName privateKeyFile : String) (prune : Bool)
    (hv : self.isValid = true)
    (hr : (setRemote_ e self remoteName privateKeyFile).ret = true)
    (hc : e.git_remote_connect = .ok) (hd : e.git_remote_download = .ok)
    (ht : e.git_remote_update_tips = .ok) :
    fetch e self remoteName privateKeyFile prune
      = ⟨some true, { (committer e (setRemote_ e self remoteName privateKeyFile).self).self with
                  errCode_ := none, errCodeParam_ := none },
          .giterr_clear :: (setRemote_ e self remoteName privateKeyFile).calls ++
            [.git_remote_connect (setRemote_ e self remoteName privateKeyFile).self.remote_
              .GIT_DIRECTION_FETCH,
             .git_remote_download (setRemote_ e self remoteName privateKeyFile).self.remote_] ++
            (committer e (setRemote_ e self remoteName privateKeyFile).self).calls ++
            [.git_remote_update_tips (setRemote_ e self remoteName privateKeyFile).self.remote_
               (committer e (setRemote_ e self remoteName privateKeyFile).self).ret
               "Wolfram gitlink: fetch",
             .git_remote_disconnect
               (setRemote_ e self remoteName privateKeyFile).self.remote_]⟩ := by
  have hv2 : isValid { self with errCode_ := none, errCodeParam_ := none } = true := hv
  simp [fetch, hv2, setRemote__setErr, hr, hc, hd, ht, committer_setErr, committer_remote]

/-- The stages of `fetch` for every engine answer.  `fetch` returns success exactly when the
session is valid and remote resolution, connect, download and update-tips all succeed, which is
exactly when no error kind is left; every failing stage leaves its own error kind and no engine
call of a later stage is in the log.  `fetch` does not return exactly when the first failing
call among connect, download and update-tips left no last error. -/
theorem fetch_first_failure_wins (e : Engine) (self : GitLinkRepository)
    (remoteName privateKeyFile : String) (prune : Bool) :
    ((fetch e self remoteName privateKeyFile prune).ret = some true ↔
      self.isValid = true ∧ (setRemote_ e self remoteName privateKeyFile).ret = true ∧
      e.git_remote_connect = .ok ∧ e.git_remote_download = .ok ∧
      e.git_remote_update_tips = .ok) ∧
    ((fetch e self remoteName privateKeyFile prune).ret = some true ↔
      (fetch e self remoteName privateKeyFile prune).self.errCode_ = none) ∧
    ((fetch e self remoteName privateKeyFile prune).ret = none ↔
      self.isValid = true ∧ (setRemote_ e self remoteName privateKeyFile).ret = true ∧
      (e.git_remote_connect = .fail none ∨
        e.git_remote_connect = .ok ∧
          (e.git_remote_download = .fail none ∨
            e.git_remote_download = .ok ∧ e.git_remote_update_tips = .fail none))) ∧
    (self.isValid = false →
      (fetch e self remoteName privateKeyFile prune).self.errCode_ = some .BadRepo ∧
      (fetch e self remoteName privateKeyFile prune).calls = [.giterr_clear]) ∧
    (self.isValid = true → (setRemote_ e self remoteName privateKeyFile).ret = false →
      (fetch e self remoteName privateKeyFile prune).self.errCode_ = some .BadRemote ∧
      (fetch e self remoteName privateKeyFile prune).calls.any EngineCall.isConnect = false ∧
      (fetch e self remoteName privateKeyFile prune).calls.any EngineCall.isDownload = false ∧
      (fetch e self remoteName privateKeyFile prune).calls.any EngineCall.isUpdateTips = false ∧
      (fetch e self remoteName privateKeyFile prune).calls.any EngineCall.isDisconnect
        = false) ∧
    (self.isValid = true → cacheHit self remoteName privateKeyFile = false →
      e.git_remote_load = none →
      (fetch e self remoteName privateKeyFile prune).self.errCode_ = some .BadRemote ∧
      (fetch e self remoteName privateKeyFile prune).calls.any EngineCall.isConnect = false) ∧
    (self.isValid = true → (setRemote_ e self remoteName privateKeyFile).ret = true →
      e.git_remote_connect ≠ .ok →
      (fetch e self remoteName privateKeyFile prune).self.errCode_
        = some .RemoteConnectionFailed ∧
      (fetch e self remoteName privateKeyFile prune).calls.any EngineCall.isDownload = false ∧
      (fetch e self remoteName privateKeyFile prune).calls.any EngineCall.isUpdateTips
        = false) ∧
    (self.isValid = true → (setRemote_ e self remoteName privateKeyFile).ret = true →
      e.git_remote_connect = .ok → e.git_remote_download ≠ .ok →
      (fetch e self remoteName privateKeyFile prune).self.errCode_ = some .DownloadFailed ∧
      (fetch e self remoteName privateKeyFile prune).calls.any EngineCall.isUpdateTips
        = false) ∧
    (self.isValid = true → (setRemote_ e self remoteName privateKeyFile).ret = true →
      e.git_remote_connect = .ok → e.git_remote_download = .ok →
      e.git_remote_update_tips ≠ .ok →
      (fetch e self remoteName privateKeyFile prune).self.errCode_
        = some .UpdateTipsFailed) := by
  obtain ⟨h1, h2, h3, h4, -⟩ := setRemote__calls e self remoteName privateKeyFile
  have hload := setRemote__load_fails e self remoteName privateKeyFile
  cases hv : self.isValid
  · rw [fetch_invalid e self remoteName privateKeyFile prune hv]
    simp
  · cases hr : (setRemote_ e self remoteName privateKeyFile).ret
    · rw [fetch_badRemote e self remoteName privateKeyFile prune hv hr]
      simp [h1, h2, h3, h4, EngineCall.isConnect, EngineCall.isDownload,
        EngineCall.isUpdateTips, EngineCall.isDisconnect]
    · have hnl : cacheHit self remoteName privateKeyFile = false → e.git_remote_load ≠ none := by
        intro h1 h2
        simp [hload h1 h2] at hr
      cases hc : e.git_remote_connect with
      | fail g =>
        rw [fetch_connectFailed e self remoteName privateKeyFile prune g hv hr hc]
        cases g <;>
          simp [h1, h2, h3, h4, EngineCall.isConnect, EngineCall.isDownload,
            EngineCall.isUpdateTips, EngineCall.isDisconnect] <;>
          exact fun h1 h2 => absurd h2 (hnl h1)
      | ok =>
        cases hd : e.git_remote_download with
        | fail g =>
          rw [fetch_downloadFailed e self remoteName privateKeyFile prune g hv hr hc hd]
          cases g <;>
            simp [h1, h2, h3, h4, EngineCall.isConnect, EngineCall.isDownload,
              EngineCall.isUpdateTips, EngineCall.isDisconnect] <;>
            exact fun h1 h2 => absurd h2 (hnl h1)
        | ok =>
          cases ht : e.git_remote_update_tips with
          | fail g =>
            rw [fetch_updateTipsFailed e self remoteName privateKeyFile prune g hv hr hc
              hd ht]
            cases g <;> simp <;> exact fun h1 h2 => absurd h2 (hnl h1)
          | ok =>
            rw [fetch_ok e self remoteName privateKeyFile prune hv hr hc hd ht]
            simp
            exact fun h1 h2 => absurd h2 (hnl h1)

/-- C1: on a valid session whose remote resolves, when `git_remote_connect` fails and leaves no
last error, `fetch` has assigned `RemoteConnectionFailed` and then reads
`giterr_last()->message` through a null pointer: it does not return, neither with success nor
with failure.  The same happens after a failing download and after a failing update-tips that
leave no last error.  The log of each run ends with the failing call. -/
theorem C1_fetch_no_return_without_last_error :
    (fetch connectNoErrorEngine validSession "origin" "" false).ret = none ∧
    (fetch connectNoErrorEngine validSession "origin" "" false).calls
      = [.giterr_clear, .git_remote_load (some 0) "origin", .git_remote_set_callbacks 1,
         .git_remote_connect (some 1) .GIT_DIRECTION_FETCH] ∧
    (fetch downloadNoErrorEngine validSession "origin" "" false).ret = none ∧
    (fetch downloadNoErrorEngine validSession "origin" "" false).calls
      = [.giterr_clear, .git_remote_load (some 0) "origin", .git_remote_set_callbacks 1,
         .git_remote_connect (some 1) .GIT_DIRECTION_FETCH, .git_remote_download (some 1)] ∧
    (fetch updateTipsNoErrorEngine validSession "origin" "" false).ret = none ∧
    (fetch updateTipsNoErrorEngine validSession "origin" "" false).calls
      = [.giterr_clear, .git_remote_load (some 0) "origin", .git_remote_set_callbacks 1,
         .git_remote_connect (some 1) .GIT_DIRECTION_FETCH, .git_remote_download (some 1),
         .git_signature_default 0,
         .git_remote_update_tips (some 1) (some 3) "Wolfram gitlink: fetch"] ∧
    (fetch connectFailsEngine validSession "origin" "" false).ret = some false ∧
    (fetch connectFailsEngine validSession "origin" "" false).self.errCode_
      = some .RemoteConnectionFailed := by
  refine ⟨rfl, rfl, rfl, rfl, rfl, rfl, rfl, rfl⟩

/-! ## Push -/

/-- The status enumeration with `pushCallBack_`: without a rejection message nothing is stored;
with one, the callback stores the error kind and then either stores the engine's last-error
message and stops the enumeration, or does not return because there is no last error. -/
theorem git_push_status_foreach_eq (layout : PayloadLayout) (giterr_last : Option String)
    (status : List (String × Option String)) (data : GitLinkRepository) :
    git_push_status_foreach (pushCallBack_ layout giterr_last) status data
      = if status.any (fun p => p.2.isSome) then
          (match giterr_last with
            | some message =>
              (some (1 : Int), layout.store_errCodeParam_
                (layout.store_errCode_ data .RefNotPushed) message)
            | none => (none, layout.store_errCode_ data .RefNotPushed))
        else (some (0 : Int), data) := by
  induction status with
  | nil => rfl
  | cons p rest ih =>
    rcases p with ⟨ref, msg⟩
    cases msg with
    | none =>
      have h0 : (none : Option String).isSome = false := rfl
      simp only [git_push_status_foreach, pushCallBack_, ih, List.any_cons, h0, Bool.false_or]
      simp
    | some m =>
      cases giterr_last <;> simp [git_push_status_foreach, pushCallBack_]

/-- The calls after the connect, when nothing before it is a connect. -/
theorem afterConnect_append (before after : List EngineCall) (c : EngineCall)
    (hb : before.any EngineCall.isConnect = false) (hc : c.isConnect = true) :
    afterConnect (before ++ c :: after) = after := by
  induction before with
  | nil => simp [afterConnect, hc]
  | cons b rest ih =>
    simp only [List.any_cons, Bool.or_eq_false_iff] at hb
    simp [afterConnect, hb.1, ih hb.2]

/-- A log without a call of some kind has an empty filter for that kind. -/
theorem filter_eq_nil_of_any (p : EngineCall → Bool) (l : List EngineCall)
    (h : l.any p = false) : l.filter p = [] := by
  induction l with
  | nil => rfl
  | cons b rest ih =>
    simp only [List.any_cons, Bool.or_eq_false_iff] at h
    simp [List.filter_cons, h.1, ih h.2]

/-- A log made of calls before the connect, the connect, calls after it and the final
disconnect: there is one disconnect, it is the last call, and nothing after the connect frees
the connection. -/
theorem log_shape (before middle : List EngineCall) (remote last : Option Nat)
    (dir : Direction)
    (hb1 : before.any EngineCall.isConnect = false)
    (hb2 : before.any EngineCall.isDisconnect = false)
    (hm1 : middle.any EngineCall.isDisconnect = false)
    (hm2 : middle.any EngineCall.isRemoteFree = false) :
    (before ++ EngineCall.git_remote_connect remote dir ::
        (middle ++ [EngineCall.git_remote_disconnect last])).filter EngineCall.isDisconnect
      = [EngineCall.git_remote_disconnect last] ∧
    (before ++ EngineCall.git_remote_connect remote dir ::
        (middle ++ [EngineCall.git_remote_disconnect last])).getLast?
      = some (EngineCall.git_remote_disconnect last) ∧
    (afterConnect (before ++ EngineCall.git_remote_connect remote dir ::
        (middle ++ [EngineCall.git_remote_disconnect last]))).any EngineCall.isRemoteFree
      = false := by
  refine ⟨?_, ?_, ?_⟩
  · simp [List.filter_append, List.filter_cons, filter_eq_nil_of_any _ _ hb2,
      filter_eq_nil_of_any _ _ hm1, EngineCall.isDisconnect]
  · have : before ++ EngineCall.git_remote_connect remote dir ::
        (middle ++ [EngineCall.git_remote_disconnect last])
        = (before ++ EngineCall.git_remote_connect remote dir :: middle) ++
          [EngineCall.git_remote_disconnect last] := by simp
    rw [this, List.getLast?_concat]
  · rw [afterConnect_append before _ (EngineCall.git_remote_connect remote dir) hb1 rfl]
    simp [hm2, EngineCall.isRemoteFree]

/-- The calls made before the connect do not matter for the push-free count. -/
theorem filter_pushFree_log (before middle : List EngineCall) (remote last : Option Nat)
    (dir : Direction) (hb : before.any EngineCall.isPushFree = false) :
    (before ++ EngineCall.git_remote_connect remote dir ::
        (middle ++ [EngineCall.git_remote_disconnect last])).filter EngineCall.isPushFree
      = middle.filter EngineCall.isPushFree := by
  simp [List.filter_append, List.filter_cons, filter_eq_nil_of_any _ _ hb,
    EngineCall.isPushFree]

/-- The calls of `pushSet` and its result: it makes no disconnect and frees nothing; when it
returns, it returns what `git_push_new` gave; and it returns unless `git_push_finish` fails
without a last error or a ref is rejected while the engine has no last error. -/
theorem pushSet_frame (layout : PayloadLayout) (e : Engine) (self : GitLinkRepository)
    (branchName : String) :
    (pushSet layout e self branchName).calls.any EngineCall.isDisconnect = false ∧
    (pushSet layout e self branchName).calls.any EngineCall.isRemoteFree = false ∧
    (pushSet layout e self branchName).calls.any EngineCall.isPushFree = false ∧
    (∀ pushObject, (pushSet layout e self branchName).ret = some pushObject →
      pushObject = e.git_push_new) ∧
    (e.git_push_finish ≠ .fail none →
      (e.giterr_last.isSome = true ∨ e.push_status.any (fun p => p.2.isSome) = false) →
      (pushSet layout e self branchName).ret.isSome = true) := by
  unfold pushSet
  rw [git_push_status_foreach_eq]
  cases e.git_push_new with
  | none => simp [EngineCall.isDisconnect, EngineCall.isRemoteFree, EngineCall.isPushFree]
  | some pushObject =>
    cases e.git_push_add_refspec with
    | false => simp [EngineCall.isDisconnect, EngineCall.isRemoteFree, EngineCall.isPushFree]
    | true =>
      cases e.git_push_finish with
      | fail g =>
        cases g <;>
          simp [EngineCall.isDisconnect, EngineCall.isRemoteFree, EngineCall.isPushFree]
      | ok =>
        cases e.git_push_unpack_ok with
        | false => simp [EngineCall.isDisconnect, EngineCall.isRemoteFree, EngineCall.isPushFree]
        | true =>
          cases self.errCode_.isNone with
          | false => simp [EngineCall.isDisconnect, EngineCall.isRemoteFree, EngineCall.isPushFree]
          | true =>
            cases e.push_status.any (fun p => p.2.isSome) with
            | false =>
              simp [EngineCall.isDisconnect, EngineCall.isRemoteFree, EngineCall.isPushFree]
            | true =>
              cases e.giterr_last with
              | none =>
                simp [EngineCall.isDisconnect, EngineCall.isRemoteFree, EngineCall.isPushFree]
              | some message =>
                simp [EngineCall.isDisconnect, EngineCall.isRemoteFree, EngineCall.isPushFree]

/-- `push` once the connection is established: the push-set chain runs on the session
`setRemote_` left; when it returns, the push-set (if any) is freed and the connection
disconnected; when it does not, neither happens. -/
theorem push_connected (layout : PayloadLayout) (e : Engine) (self : GitLinkRepository)
    (remoteName privateKeyFile branchName : String)
    (hv : self.isValid = true)
    (hr : (setRemote_ e self remoteName privateKeyFile).ret = true)
    (hc : e.git_remote_connect = .ok) :
    push layout e self remoteName privateKeyFile branchName
      = (match (pushSet layout e { (setRemote_ e self remoteName privateKeyFile).self with
            errCode_ := none, errCodeParam_ := none } branchName).ret with
          | none =>
            ⟨none,
              (pushSet layout e { (setRemote_ e self remoteName privateKeyFile).self with
                errCode_ := none, errCodeParam_ := none } branchName).self,
              (setRemote_ e self remoteName privateKeyFile).calls ++
                EngineCall.git_remote_connect
                    (setRemote_ e self remoteName privateKeyFile).self.remote_
                    .GIT_DIRECTION_PUSH ::
                  (pushSet layout e { (setRemote_ e self remoteName privateKeyFile).self with
                    errCode_ := none, errCodeParam_ := none } branchName).calls⟩
          | some pushObject =>
            ⟨some (pushSet layout e { (setRemote_ e self remoteName privateKeyFile).self with
                errCode_ := none, errCodeParam_ := none } branchName).self.errCode_.isNone,
              (pushSet layout e { (setRemote_ e self remoteName privateKeyFile).self with
                errCode_ := none, errCodeParam_ := none } branchName).self,
              (setRemote_ e self remoteName privateKeyFile).calls ++
                EngineCall.git_remote_connect
                    (setRemote_ e self remoteName privateKeyFile).self.remote_
                    .GIT_DIRECTION_PUSH ::
                  (((pushSet layout e { (setRemote_ e self remoteName privateKeyFile).self with
                      errCode_ := none, errCodeParam_ := none } branchName).calls ++
                    freePush pushObject) ++
                  [EngineCall.git_remote_disconnect
                    (pushSet layout e { (setRemote_ e self remoteName privateKeyFile).self with
                      errCode_ := none, errCodeParam_ := none } branchName).self.remote_])⟩) := by
  have hv2 : isValid { self with errCode_ := none, errCodeParam_ := none } = true := hv
  simp only [push, hv2, setRemote__setErr, hr, hc, Outcome.succeeded, Bool.not_true,
    Bool.false_eq_true, if_false, if_true, Option.isSome_none]
  split
  · rename_i h
    simp [h]
  · rename_i pushObject h
    simp only [h, List.append_assoc, List.cons_append, List.nil_append, List.singleton_append]

/-- After a successful connect, on every path on which they return, `fetch` and `push` each
disconnect the connection exactly once, as their last engine call, and never free it after the
connect; `fetch` leaves it in the session's cache; `push` frees the push-set exactly once when
`git_push_new` constructed one and not at all otherwise.  `push` returns unless
`git_push_finish` fails without a last error or a ref is rejected while the engine has no last
error. -/
theorem disconnect_and_release_once_on_return (layout : PayloadLayout) (e : Engine)
    (self : GitLinkRepository) (remoteName privateKeyFile branchName : String) (prune : Bool)
    (hv : self.isValid = true)
    (hr : (setRemote_ e self remoteName privateKeyFile).ret = true)
    (hc : e.git_remote_connect = .ok) :
    ((fetch e self remoteName privateKeyFile prune).ret ≠ none →
      (fetch e self remoteName privateKeyFile prune).calls.filter EngineCall.isDisconnect
        = [.git_remote_disconnect (setRemote_ e self remoteName privateKeyFile).self.remote_] ∧
      (fetch e self remoteName privateKeyFile prune).calls.getLast?
        = some (.git_remote_disconnect
            (setRemote_ e self remoteName privateKeyFile).self.remote_) ∧
      (afterConnect (fetch e self remoteName privateKeyFile prune).calls).any
        EngineCall.isRemoteFree = false ∧
      (fetch e self remoteName privateKeyFile prune).self.remote_
        = (setRemote_ e self remoteName privateKeyFile).self.remote_ ∧
      (fetch e self remoteName privateKeyFile prune).self.remote_.isSome = true) ∧
    ((push layout e self remoteName privateKeyFile branchName).ret ≠ none →
      (push layout e self remoteName privateKeyFile branchName).calls.filter
          EngineCall.isDisconnect
        = [.git_remote_disconnect
            (push layout e self remoteName privateKeyFile branchName).self.remote_] ∧
      (push layout e self remoteName privateKeyFile branchName).calls.getLast?
        = some (.git_remote_disconnect
            (push layout e self remoteName privateKeyFile branchName).self.remote_) ∧
      (afterConnect (push layout e self remoteName privateKeyFile branchName).calls).any
        EngineCall.isRemoteFree = false ∧
      (push layout e self remoteName privateKeyFile branchName).calls.filter
          EngineCall.isPushFree
        = (match e.git_push_new with
            | some pushObject => [.git_push_free pushObject]
            | none => [])) ∧
    (e.git_push_finish ≠ .fail none →
      (e.giterr_last.isSome = true ∨ e.push_status.any (fun p => p.2.isSome) = false) →
      (push layout e self remoteName privateKeyFile branchName).ret ≠ none) := by
  obtain ⟨h1, -, -, h4, h5⟩ := setRemote__calls e self remoteName privateKeyFile
  obtain ⟨-, -, c3, c4, -⟩ :=
    committer_calls e (setRemote_ e self remoteName privateKeyFile).self
  have hsome := setRemote__remote_isSome e self remoteName privateKeyFile hr
  have hb1 : (EngineCall.giterr_clear ::
      (setRemote_ e self remoteName privateKeyFile).calls).any EngineCall.isConnect = false := by
    simpa [EngineCall.isConnect] using h1
  have hb2 : (EngineCall.giterr_clear ::
      (setRemote_ e self remoteName privateKeyFile).calls).any EngineCall.isDisconnect
        = false := by
    simpa [EngineCall.isDisconnect] using h4
  refine ⟨?_, ?_, ?_⟩
  · cases hd : e.git_remote_download with
    | fail g =>
      rw [fetch_downloadFailed e self remoteName privateKeyFile prune g hv hr hc hd]
      cases g with
      | none => simp
      | some message =>
        intro _
        obtain ⟨a, b, c⟩ := log_shape _
          [.git_remote_download (setRemote_ e self remoteName privateKeyFile).self.remote_]
          (setRemote_ e self remoteName privateKeyFile).self.remote_
          (setRemote_ e self remoteName privateKeyFile).self.remote_ .GIT_DIRECTION_FETCH
          hb1 hb2 rfl rfl
        simp only [List.cons_append, List.nil_append, List.append_assoc] at a b c ⊢
        exact ⟨a, b, c, trivial, hsome⟩
    | ok =>
      have hm1 : (EngineCall.git_remote_download
            (setRemote_ e self remoteName privateKeyFile).self.remote_ ::
          ((committer e (setRemote_ e self remoteName privateKeyFile).self).calls ++
            [.git_remote_update_tips (setRemote_ e self remoteName privateKeyFile).self.remote_
              (committer e (setRemote_ e self remoteName privateKeyFile).self).ret
              "Wolfram gitlink: fetch"])).any EngineCall.isDisconnect = false := by
        simp [c3, EngineCall.isDisconnect]
      have hm2 : (EngineCall.git_remote_download
            (setRemote_ e self remoteName privateKeyFile).self.remote_ ::
          ((committer e (setRemote_ e self remoteName privateKeyFile).self).calls ++
            [.git_remote_update_tips (setRemote_ e self remoteName privateKeyFile).self.remote_
              (committer e (setRemote_ e self remoteName privateKeyFile).self).ret
              "Wolfram gitlink: fetch"])).any EngineCall.isRemoteFree = false := by
        simp [c4, EngineCall.isRemoteFree]
      obtain ⟨a, b, c⟩ := log_shape _ _
        (setRemote_ e self remoteName privateKeyFile).self.remote_
        (setRemote_ e self remoteName privateKeyFile).self.remote_ .GIT_DIRECTION_FETCH
        hb1 hb2 hm1 hm2
      have hcr := committer_remote e (setRemote_ e self remoteName privateKeyFile).self
      cases ht : e.git_remote_update_tips with
      | fail g =>
        rw [fetch_updateTipsFailed e self remoteName privateKeyFile prune g hv hr hc hd ht]
        cases g with
        | none => simp
        | some message =>
          intro _
          simp only [List.cons_append, List.nil_append, List.append_assoc] at a b c ⊢
          exact ⟨a, b, c, hcr, hcr ▸ hsome⟩
      | ok =>
        rw [fetch_ok e self remoteName privateKeyFile prune hv hr hc hd ht]
        intro _
        simp only [List.cons_append, List.nil_append, List.append_assoc] at a b c ⊢
        exact ⟨a, b, c, hcr, hcr ▸ hsome⟩
  · rw [push_connected layout e self remoteName privateKeyFile branchName hv hr hc]
    obtain ⟨p3, p4, p5, p2, -⟩ := pushSet_frame layout e
      { (setRemote_ e self remoteName privateKeyFile).self with
        errCode_ := none, errCodeParam_ := none } branchName
    cases hp : (pushSet layout e { (setRemote_ e self remoteName privateKeyFile).self with
        errCode_ := none, errCodeParam_ := none } branchName).ret with
    | none => simp
    | some pushObject =>
      intro _
      have p2 := p2 pushObject hp
      have hm1 : ((pushSet layout e { (setRemote_ e self remoteName privateKeyFile).self with
          errCode_ := none, errCodeParam_ := none } branchName).calls ++
          freePush pushObject).any EngineCall.isDisconnect = false := by
        cases pushObject <;> simp [p3, EngineCall.isDisconnect, freePush]
      have hm2 : ((pushSet layout e { (setRemote_ e self remoteName privateKeyFile).self with
          errCode_ := none, errCodeParam_ := none } branchName).calls ++
          freePush pushObject).any EngineCall.isRemoteFree = false := by
        cases pushObject <;> simp [p4, EngineCall.isRemoteFree, freePush]
      obtain ⟨a, b, c⟩ := log_shape _ _
        (setRemote_ e self remoteName privateKeyFile).self.remote_
        (pushSet layout e { (setRemote_ e self remoteName privateKeyFile).self with
          errCode_ := none, errCodeParam_ := none } branchName).self.remote_
        .GIT_DIRECTION_PUSH h1 h4 hm1 hm2
      have d := filter_pushFree_log (setRemote_ e self remoteName privateKeyFile).calls
        ((pushSet layout e { (setRemote_ e self remoteName privateKeyFile).self with
          errCode_ := none, errCodeParam_ := none } branchName).calls ++
          freePush pushObject)
        (setRemote_ e self remoteName privateKeyFile).self.remote_
        (pushSet layout e { (setRemote_ e self remoteName privateKeyFile).self with
          errCode_ := none, errCodeParam_ := none } branchName).self.remote_
        .GIT_DIRECTION_PUSH h5
      refine ⟨a, b, c, ?_⟩
      show List.filter EngineCall.isPushFree _ = _
      rw [d, ← p2, List.filter_append, filter_eq_nil_of_any _ _ p5]
      cases pushObject <;> simp [EngineCall.isPushFree, freePush]
  · intro hf hg
    rw [push_connected layout e self remoteName privateKeyFile branchName hv hr hc]
    have hs := (pushSet_frame layout e
      { (setRemote_ e self remoteName privateKeyFile).self with
        errCode_ := none, errCodeParam_ := none } branchName).2.2.2.2 hf hg
    obtain ⟨pushObject, hp⟩ := Option.isSome_iff_exists.1 hs
    simp [hp]

/-- C2: three refs are pushed, every stage up to the unpack check succeeds and the remote
rejects exactly one ref with the message `non-fast-forward`.  Whatever the class layout, with no
last error in the engine the status callback reads the message of a null last error and `push`
does not return; and with a last error left by an earlier call the result of `push` is the same
for every rejection message, because the callback never stores `msg`.  With that stale last
error, a layout in which the stores through `&errCode_` reach the session makes `push` fail with
`RefNotPushed` and the stale text, and a layout in which they miss it makes `push` return
success with no error kind. -/
theorem C2_rejection_message_not_carried (layout : PayloadLayout) :
    (push layout rejectEngine validSession "origin" "" "refs/heads/dev").ret = none ∧
    (pushCallBack_ layout none "refs/heads/dev" (some "non-fast-forward") validSession).1
      = none ∧
    (∀ msg : String,
      push layout (staleErrorEngineWith msg) validSession "origin" "" "refs/heads/dev"
        = push layout (staleErrorEngineWith "non-fast-forward") validSession "origin" ""
            "refs/heads/dev") ∧
    (∀ (giterr_last : Option String) (ref msg : String) (data : GitLinkRepository),
      pushCallBack_ layout giterr_last ref (some msg) data
        = pushCallBack_ layout giterr_last ref (some "non-fast-forward") data) ∧
    ((push .atObject (staleErrorEngineWith "non-fast-forward") validSession "origin" ""
        "refs/heads/dev").ret = some false ∧
      (push .atObject (staleErrorEngineWith "non-fast-forward") validSession "origin" ""
        "refs/heads/dev").self.errCode_ = some .RefNotPushed ∧
      (push .atObject (staleErrorEngineWith "non-fast-forward") validSession "origin" ""
        "refs/heads/dev").self.errCodeParam_
        = some "config value user.name was not found") ∧
    ((push .pastObject (staleErrorEngineWith "non-fast-forward") validSession "origin" ""
        "refs/heads/dev").ret = some true ∧
      (push .pastObject (staleErrorEngineWith "non-fast-forward") validSession "origin" ""
        "refs/heads/dev").self.errCode_ = none) := by
  refine ⟨rfl, rfl, fun _ => rfl, fun _ _ _ _ => rfl, ⟨rfl, rfl, rfl⟩, ⟨rfl, rfl⟩⟩

/-- C5: after a successful connect, whatever the class layout, `push` does not return when a
ref is rejected while the engine has no last error, or when `git_push_finish` fails without a
last error: push-set `5` was constructed but the log ends before any `git_push_free` and any
`git_remote_disconnect`.  `fetch` likewise does not return, and never disconnects, when the
download or the update of the tips fails without a last error. -/
theorem C5_no_release_without_last_error (layout : PayloadLayout) :
    (rejectEngine.git_remote_connect = .ok ∧ rejectEngine.git_push_new = some 5 ∧
      rejectEngine.giterr_last = none) ∧
    ((push layout rejectEngine validSession "origin" "" "refs/heads/dev").ret = none ∧
      (push layout rejectEngine validSession "origin" "" "refs/heads/dev").calls
        = [.git_remote_load (some 0) "origin", .git_remote_set_callbacks 1,
           .git_remote_connect (some 1) .GIT_DIRECTION_PUSH, .git_push_new (some 1),
           .git_push_add_refspec 5 "refs/heads/dev", .git_push_finish 5,
           .git_push_unpack_ok 5, .git_push_status_foreach 5] ∧
      (push layout rejectEngine validSession "origin" "" "refs/heads/dev").calls.any
        EngineCall.isPushFree = false ∧
      (push layout rejectEngine validSession "origin" "" "refs/heads/dev").calls.any
        EngineCall.isDisconnect = false) ∧
    ((push layout finishNoErrorEngine validSession "origin" "" "refs/heads/dev").ret = none ∧
      (push layout finishNoErrorEngine validSession "origin" "" "refs/heads/dev").calls
        = [.git_remote_load (some 0) "origin", .git_remote_set_callbacks 1,
           .git_remote_connect (some 1) .GIT_DIRECTION_PUSH, .git_push_new (some 1),
           .git_push_add_refspec 5 "refs/heads/dev", .git_push_finish 5]) ∧
    ((fetch downloadNoErrorEngine validSession "origin" "" false).ret = none ∧
      (fetch downloadNoErrorEngine validSession "origin" "" false).calls.any
        EngineCall.isConnect = true ∧
      (fetch downloadNoErrorEngine validSession "origin" "" false).calls.any
        EngineCall.isDisconnect = false) ∧
    ((fetch updateTipsNoErrorEngine validSession "origin" "" false).ret = none ∧
      (fetch updateTipsNoErrorEngine validSession "origin" "" false).calls.any
        EngineCall.isConnect = true ∧
      (fetch updateTipsNoErrorEngine validSession "origin" "" false).calls.any
        EngineCall.isDisconnect = false) := by
  refine ⟨⟨rfl, rfl, rfl⟩, ⟨rfl, rfl, rfl, rfl⟩, ⟨rfl, rfl⟩, ⟨rfl, rfl, rfl⟩, ⟨rfl, rfl, rfl⟩⟩

end GitLinkRepository

end GitLink
